import Mathlib

/-!
Verification of the talent-search wrapper in src/ai/talent_finder.py.

The three pretrained models (NER pipeline, sentence-embedding model,
text-generation summarizer) and the sklearn cosine-similarity routine are
third-party numerical code; they are embedded as uninterpreted functions
carried in the TalentFinderAI state.  Everything the repository itself
computes (keyword scans, set operations, ratios, sorting, truncation,
string assembly, and the constructor's error handling) is translated
faithfully from the Python source.
-/

namespace TalentFinder

/-- An aggregated named-entity record as produced by the NER pipeline:
the dicts carry entity_group, word and score. -/
structure Entity where
  entity_group : String
  word : String
  score : ℚ
deriving DecidableEq, Repr

/-- Python str.lower for the ASCII texts handled here, character by
character. -/
def pyLower (s : String) : String := String.mk (s.toList.map Char.toLower)

/-- Python str.title, character by character: an alphabetic character is
uppercased when the previous character was not alphabetic and lowercased
otherwise; other characters pass through. -/
def pyTitleAux : List Char → Bool → List Char
  | [], _ => []
  | c :: cs, prevAlpha =>
    (if c.isAlpha then (if prevAlpha then c.toLower else c.toUpper) else c)
      :: pyTitleAux cs c.isAlpha

/-- Python str.title on a string. -/
def pyTitle (s : String) : String := String.mk (pyTitleAux s.toList false)

/-- Python substring membership: needle in haystack. -/
def pyIn (needle haystack : String) : Bool :=
  decide (needle.toList <:+: haystack.toList)

/-- The fixed keyword list of extract_skills (talent_finder.py lines 193-198). -/
def skills_keywords : List String :=
  ["python", "javascript", "java", "react", "angular", "vue", "node.js",
   "sql", "mongodb", "postgresql", "aws", "azure", "docker", "kubernetes",
   "machine learning", "ai", "tensorflow", "pytorch",
   "leadership", "communication", "project management", "agile", "scrum"]

/-- The fixed keyword list of parse_resume (talent_finder.py lines 159-170). -/
def skills_keywords_resume : List String :=
  ["python", "javascript", "java", "react", "angular", "vue", "node.js",
   "sql", "mongodb", "postgresql", "mysql", "redis",
   "aws", "azure", "gcp", "docker", "kubernetes", "jenkins",
   "git", "github", "gitlab", "ci/cd",
   "machine learning", "deep learning", "ai", "tensorflow", "pytorch",
   "html", "css", "typescript", "php", "ruby", "go", "rust",
   "leadership", "communication", "teamwork", "project management",
   "agile", "scrum", "problem solving", "analytical", "creative"]

/-- TalentFinderAI.extract_skills: scan the fixed keyword list against the
lowercased text, title-case the hits, and deduplicate (Python
list(set(found_skills))). -/
def extract_skills (text : String) : List String :=
  ((skills_keywords.filter fun skill => pyIn skill (pyLower text)).map pyTitle).dedup

/-- The state built by TalentFinderAI.__init__: the NER pipeline, the
sentence-embedding model, sklearn's cosine_similarity, and the optional
summarizer, all uninterpreted.  The summarizer pipeline (tokenizer,
generate, decode) is collapsed into one function from the prompt and
max_length to the decoded summary. -/
structure TalentFinderAI where
  ner : String → List Entity
  similarity_model : String → List ℚ
  cosine_similarity : List ℚ → List ℚ → ℚ
  has_summarizer : Bool
  summarizer_tokenizer : Option Unit
  summarizer_model : Option (String → Nat → String)

/-- The dictionary returned by TalentFinderAI.parse_resume. -/
structure ParsedResume where
  names : List String
  companies : List String
  locations : List String
  skills : List String
  job_titles : List String
  education : List String
deriving DecidableEq, Repr

/-- TalentFinderAI.parse_resume: route NER entities by entity_group into
names/companies/locations, scan the keyword list for skills, and
deduplicate every list (the final for-loop applies list(set(...)) to all
six keys). -/
def parse_resume (ai : TalentFinderAI) (resume_text : String) : ParsedResume :=
  let entities := ai.ner resume_text
  let names := (entities.filter fun e => e.entity_group == "PER").map Entity.word
  let companies := (entities.filter fun e => e.entity_group == "ORG").map Entity.word
  let locations := (entities.filter fun e => e.entity_group == "LOC").map Entity.word
  let skills :=
    (skills_keywords_resume.filter fun skill => pyIn skill (pyLower resume_text)).map pyTitle
  { names := names.dedup
    companies := companies.dedup
    locations := locations.dedup
    skills := skills.dedup
    job_titles := ([] : List String).dedup
    education := ([] : List String).dedup }

/-- The dictionary returned by TalentFinderAI.match_candidate_to_job. -/
structure MatchResult where
  overall_match_score : ℚ
  skill_match_ratio : ℚ
  matched_skills : List String
  missing_skills : List String
  candidate_skills : List String
  required_skills : List String
deriving DecidableEq, Repr

/-- TalentFinderAI.match_candidate_to_job: embed both texts, take their
cosine similarity, extract both skill lists, intersect and subtract them
as sets, and compute the guarded skill match ratio. -/
def match_candidate_to_job (ai : TalentFinderAI)
    (candidate_profile job_description : String) : MatchResult :=
  let candidate_embedding := ai.similarity_model candidate_profile
  let job_embedding := ai.similarity_model job_description
  let similarity_score := ai.cosine_similarity candidate_embedding job_embedding
  let required_skills := extract_skills job_description
  let candidate_skills := extract_skills candidate_profile
  let matched_skills := required_skills.filter fun s => decide (s ∈ candidate_skills)
  let skill_match_ratio : ℚ :=
    if required_skills ≠ [] then
      (matched_skills.length : ℚ) / (required_skills.length : ℚ)
    else 0
  { overall_match_score := similarity_score
    skill_match_ratio := skill_match_ratio
    matched_skills := matched_skills
    missing_skills := required_skills.filter fun s => decide (s ∉ candidate_skills)
    candidate_skills := candidate_skills
    required_skills := required_skills }

/-- The per-candidate dict assembled by find_top_candidates: the match
result plus candidate_id and profile_preview. -/
structure RankedResult where
  result : MatchResult
  candidate_id : Nat
  profile_preview : String
deriving DecidableEq, Repr

/-- profile[:150] plus an ellipsis when the profile exceeds 150 characters. -/
def previewOf (profile : String) : String :=
  if profile.length > 150 then profile.take 150 ++ "..." else profile

/-- The list of per-candidate results built by the loop in
find_top_candidates, in candidate order. -/
def allResults (ai : TalentFinderAI) (job_description : String)
    (candidate_profiles : List String) : List RankedResult :=
  candidate_profiles.enum.map fun ip =>
    { result := match_candidate_to_job ai ip.2 job_description
      candidate_id := ip.1
      profile_preview := previewOf ip.2 }

/-- The comparison used by results.sort(key=lambda x: x["overall_match_score"],
reverse=True): a precedes b when its score is at least b's. -/
def scoreDescLe (a b : RankedResult) : Bool :=
  decide (b.result.overall_match_score ≤ a.result.overall_match_score)

/-- TalentFinderAI.find_top_candidates: build every match result, sort by
overall_match_score descending (Python's stable sort), and keep the first
top_k. -/
def find_top_candidates (ai : TalentFinderAI) (job_description : String)
    (candidate_profiles : List String) (top_k : Nat) : List RankedResult :=
  ((allResults ai job_description candidate_profiles).mergeSort scoreDescLe).take top_k

/-- The fallback summary assembled when the summarizer is unavailable
(talent_finder.py lines 322-329). -/
def fallback_summary (ai : TalentFinderAI) (profile_text : String) : String :=
  let skills := extract_skills profile_text
  let parsed := parse_resume ai profile_text
  let summary := "Skills: " ++ String.intercalate ", " (skills.take 5) ++ ". "
  if parsed.companies ≠ [] then
    summary ++ ("Experience at: " ++ String.intercalate ", " (parsed.companies.take 2) ++ ".")
  else summary

/-- TalentFinderAI.summarize_profile.  The generation branch calls the
uninterpreted summarizer on the truncated prompt; invoking it while the
fields are None is the crash Python would raise, modelled as none. -/
def summarize_profile (ai : TalentFinderAI) (profile_text : String)
    (max_length : Nat) : Option String :=
  if ai.has_summarizer = false then
    some (fallback_summary ai profile_text)
  else
    match ai.summarizer_tokenizer, ai.summarizer_model with
    | some _, some gen =>
        some (gen ("Summarize this candidate profile: " ++ profile_text.take 500) max_length)
    | _, _ => none

/-- The ImportError message raised by the outer except of __init__. -/
def importErrorMsg (e : String) : String :=
  "\nError loading models: " ++ e ++ "\n\nMake sure you have installed:\n" ++
  "  pip install transformers sentence-transformers scikit-learn sentencepiece"

/-- TalentFinderAI.__init__ as a function of the three load outcomes.  The
outer try wraps all three loads and turns any escaping failure into an
ImportError; the inner try around the summarizer load catches its failure
and falls back to has_summarizer := false with both fields None. -/
def TalentFinderAI.init
    (nerLoad : Except String (String → List Entity))
    (simLoad : Except String (String → List ℚ))
    (cossim : List ℚ → List ℚ → ℚ)
    (sumLoad : Except String (Unit × (String → Nat → String))) :
    Except String TalentFinderAI :=
  match nerLoad with
  | Except.error e => Except.error (importErrorMsg e)
  | Except.ok nerM =>
    match simLoad with
    | Except.error e => Except.error (importErrorMsg e)
    | Except.ok simM =>
      match sumLoad with
      | Except.error _ =>
          Except.ok { ner := nerM, similarity_model := simM, cosine_similarity := cossim,
                      has_summarizer := false, summarizer_tokenizer := none,
                      summarizer_model := none }
      | Except.ok tm =>
          Except.ok { ner := nerM, similarity_model := simM, cosine_similarity := cossim,
                      has_summarizer := true, summarizer_tokenizer := some tm.1,
                      summarizer_model := some tm.2 }

/-- A concrete state for witnesses: every uninterpreted model is trivial
and the summarizer is absent. -/
def testAI : TalentFinderAI :=
  { ner := fun _ => []
    similarity_model := fun _ => []
    cosine_similarity := fun _ _ => 0
    has_summarizer := false
    summarizer_tokenizer := none
    summarizer_model := none }

/-- Membership in extract_skills is exactly: the title-cased form of a
keyword that occurs in the lowercased text. -/
lemma mem_extract_skills {text s : String} :
    s ∈ extract_skills text ↔
      ∃ kw, kw ∈ skills_keywords ∧ pyIn kw (pyLower text) = true ∧ pyTitle kw = s := by
  simp [extract_skills, List.mem_dedup, List.mem_map, List.mem_filter]
  constructor
  · rintro ⟨kw, ⟨hkw, hin⟩, hs⟩
    exact ⟨kw, hkw, hin, hs⟩
  · rintro ⟨kw, hkw, hin, hs⟩
    exact ⟨kw, ⟨hkw, hin⟩, hs⟩

/-- Claim C3: extract_skills returns, duplicate-free, exactly the
title-cased keywords of the fixed list that occur as substrings of the
lowercased input, and nothing else. -/
theorem extract_skills_spec (text : String) :
    (extract_skills text).Nodup ∧
      ∀ s, s ∈ extract_skills text ↔
        ∃ kw, kw ∈ skills_keywords ∧ pyIn kw (pyLower text) = true ∧ pyTitle kw = s := by
  exact ⟨List.nodup_dedup _, fun s => mem_extract_skills⟩

/-- Claim C3 witness: on a concrete text the characterization holds. -/
theorem extract_skills_spec_witness :
    (extract_skills "python and sql").Nodup ∧
      ∀ s, s ∈ extract_skills "python and sql" ↔
        ∃ kw, kw ∈ skills_keywords ∧ pyIn kw (pyLower "python and sql") = true ∧
          pyTitle kw = s :=
  extract_skills_spec "python and sql"

/-- Claim C2: the overall_match_score returned by match_candidate_to_job is
exactly the cosine similarity of the two embeddings, both models being
uninterpreted. -/
theorem overall_match_score_is_cosine (ai : TalentFinderAI)
    (candidate_profile job_description : String) :
    (match_candidate_to_job ai candidate_profile job_description).overall_match_score
      = ai.cosine_similarity (ai.similarity_model candidate_profile)
          (ai.similarity_model job_description) := rfl

/-- Claim C2 witness: the identity at a concrete state and concrete texts. -/
theorem overall_match_score_is_cosine_witness :
    (match_candidate_to_job testAI "alice" "job").overall_match_score
      = testAI.cosine_similarity (testAI.similarity_model "alice")
          (testAI.similarity_model "job") :=
  overall_match_score_is_cosine testAI "alice" "job"

end TalentFinder

namespace TalentFinder

/-- Claim C7: the skill_match_ratio division is guarded: with no required
skills the ratio is 0, and it always lies in [0, 1]. -/
theorem skill_match_ratio_spec (ai : TalentFinderAI)
    (candidate_profile job_description : String) :
    (extract_skills job_description = [] →
      (match_candidate_to_job ai candidate_profile job_description).skill_match_ratio = 0) ∧
    0 ≤ (match_candidate_to_job ai candidate_profile job_description).skill_match_ratio ∧
    (match_candidate_to_job ai candidate_profile job_description).skill_match_ratio ≤ 1 := by
  have hratio : (match_candidate_to_job ai candidate_profile job_description).skill_match_ratio
      = if extract_skills job_description ≠ [] then
          ((((extract_skills job_description).filter
              fun s => decide (s ∈ extract_skills candidate_profile)).length : ℚ)
            / ((extract_skills job_description).length : ℚ))
        else 0 := rfl
  by_cases h : extract_skills job_description = []
  · refine ⟨fun _ => ?_, ?_, ?_⟩ <;> simp [hratio, h]
  · have hpos : 0 < (extract_skills job_description).length := List.length_pos.mpr h
    have hposq : (0 : ℚ) < ((extract_skills job_description).length : ℚ) := by
      exact_mod_cast hpos
    refine ⟨fun h0 => absurd h0 h, ?_, ?_⟩
    · rw [hratio, if_pos h]
      exact div_nonneg (Nat.cast_nonneg _) (Nat.cast_nonneg _)
    · rw [hratio, if_pos h]
      exact (div_le_one hposq).mpr (by exact_mod_cast List.length_filter_le _ _)

/-- Claim C7 witness: a job description with no extractable skills yields
ratio 0, and the bounds hold there. -/
theorem skill_match_ratio_spec_witness :
    (match_candidate_to_job testAI "python dev" "unrelated text").skill_match_ratio = 0 ∧
    0 ≤ (match_candidate_to_job testAI "python dev" "unrelated text").skill_match_ratio ∧
    (match_candidate_to_job testAI "python dev" "unrelated text").skill_match_ratio ≤ 1 :=
  ⟨(skill_match_ratio_spec testAI "python dev" "unrelated text").1 (by decide),
   (skill_match_ratio_spec testAI "python dev" "unrelated text").2⟩

/-- Claim C8: matched_skills and missing_skills are disjoint, together they
cover required_skills exactly, and matched_skills lies inside
candidate_skills (all as sets). -/
theorem match_skill_partition (ai : TalentFinderAI)
    (candidate_profile job_description : String) :
    ((match_candidate_to_job ai candidate_profile job_description).matched_skills.toFinset ∩
      (match_candidate_to_job ai candidate_profile job_description).missing_skills.toFinset
        = ∅) ∧
    ((match_candidate_to_job ai candidate_profile job_description).matched_skills.toFinset ∪
      (match_candidate_to_job ai candidate_profile job_description).missing_skills.toFinset
        = (match_candidate_to_job ai candidate_profile job_description).required_skills.toFinset) ∧
    ((match_candidate_to_job ai candidate_profile job_description).matched_skills.toFinset ⊆
      (match_candidate_to_job ai candidate_profile job_description).candidate_skills.toFinset) := by
  have hmat : (match_candidate_to_job ai candidate_profile job_description).matched_skills
      = (extract_skills job_description).filter
          fun s => decide (s ∈ extract_skills candidate_profile) := rfl
  have hmis : (match_candidate_to_job ai candidate_profile job_description).missing_skills
      = (extract_skills job_description).filter
          fun s => decide (s ∉ extract_skills candidate_profile) := rfl
  have hreq : (match_candidate_to_job ai candidate_profile job_description).required_skills
      = extract_skills job_description := rfl
  have hcand : (match_candidate_to_job ai candidate_profile job_description).candidate_skills
      = extract_skills candidate_profile := rfl
  refine ⟨?_, ?_, ?_⟩
  · ext s
    simp only [hmat, hmis, Finset.mem_inter, List.mem_toFinset, List.mem_filter,
      decide_eq_true_iff, Finset.not_mem_empty, iff_false]
    tauto
  · ext s
    simp only [hmat, hmis, hreq, Finset.mem_union, List.mem_toFinset, List.mem_filter,
      decide_eq_true_iff]
    tauto
  · intro s hs
    simp only [hmat, hcand, List.mem_toFinset, List.mem_filter, decide_eq_true_iff] at hs ⊢
    exact hs.2

/-- Claim C8 witness: the partition facts at a concrete state and texts. -/
theorem match_skill_partition_witness :
    ((match_candidate_to_job testAI "python and java" "python and sql").matched_skills.toFinset ∩
      (match_candidate_to_job testAI "python and java" "python and sql").missing_skills.toFinset
        = ∅) ∧
    ((match_candidate_to_job testAI "python and java" "python and sql").matched_skills.toFinset ∪
      (match_candidate_to_job testAI "python and java" "python and sql").missing_skills.toFinset
        = (match_candidate_to_job testAI "python and java" "python and sql").required_skills.toFinset) ∧
    ((match_candidate_to_job testAI "python and java" "python and sql").matched_skills.toFinset ⊆
      (match_candidate_to_job testAI "python and java" "python and sql").candidate_skills.toFinset) :=
  match_skill_partition testAI "python and java" "python and sql"

/-- Claim C9: parse_resume always yields duplicate-free lists for all six
keys, and job_titles and education are always empty. -/
theorem parse_resume_spec (ai : TalentFinderAI) (resume_text : String) :
    (parse_resume ai resume_text).names.Nodup ∧
    (parse_resume ai resume_text).companies.Nodup ∧
    (parse_resume ai resume_text).locations.Nodup ∧
    (parse_resume ai resume_text).skills.Nodup ∧
    (parse_resume ai resume_text).job_titles = [] ∧
    (parse_resume ai resume_text).education = [] :=
  ⟨List.nodup_dedup _, List.nodup_dedup _, List.nodup_dedup _, List.nodup_dedup _, rfl, rfl⟩

/-- Claim C9 witness: the six facts at a concrete state and text. -/
theorem parse_resume_spec_witness :
    (parse_resume testAI "python at google").names.Nodup ∧
    (parse_resume testAI "python at google").companies.Nodup ∧
    (parse_resume testAI "python at google").locations.Nodup ∧
    (parse_resume testAI "python at google").skills.Nodup ∧
    (parse_resume testAI "python at google").job_titles = [] ∧
    (parse_resume testAI "python at google").education = [] :=
  parse_resume_spec testAI "python at google"

end TalentFinder

namespace TalentFinder

/-- Claim C4 counterexample: on the text "git" parse_resume extracts the
skill Git (its keyword list contains "git") while extract_skills, whose
keyword list does not, returns nothing, so the two skill sets differ. -/
theorem parse_skills_ne_extract_skills :
    ¬ ((parse_resume testAI "git").skills.toFinset = (extract_skills "git").toFinset) := by
  decide

/-- Every keyword of extract_skills also appears in parse_resume's longer
keyword list. -/
lemma skills_keywords_subset :
    ∀ kw ∈ skills_keywords, kw ∈ skills_keywords_resume := by decide

/-- Claim C4 amended: both methods are keyword-substring scans, but
parse_resume scans a strictly larger keyword list, so extract_skills is
only a subset (as a set) of parse_resume's skills, not equal to it. -/
theorem extract_skills_subset_parse (ai : TalentFinderAI) (text s : String)
    (h : s ∈ extract_skills text) : s ∈ (parse_resume ai text).skills := by
  rcases mem_extract_skills.mp h with ⟨kw, hkw, hin, hs⟩
  show s ∈ ((skills_keywords_resume.filter
      fun skill => pyIn skill (pyLower text)).map pyTitle).dedup
  rw [List.mem_dedup, List.mem_map]
  exact ⟨kw, List.mem_filter.mpr ⟨skills_keywords_subset kw hkw, hin⟩, hs⟩

/-- Claim C4 amended witness: Python is extracted from "python" by both
methods. -/
theorem extract_skills_subset_parse_witness :
    "Python" ∈ (parse_resume testAI "python").skills :=
  extract_skills_subset_parse testAI "python" "Python" (by decide)

/-- Claim C5: with has_summarizer False, summarize_profile returns exactly
the fallback string assembled from the first five extracted skills and the
first two parsed companies (when any), and its result does not depend on
the summarizer fields at all. -/
theorem summarize_profile_fallback_spec (ai : TalentFinderAI)
    (h : ai.has_summarizer = false) (profile_text : String) (max_length : Nat) :
    (summarize_profile ai profile_text max_length
      = some (
          if (parse_resume ai profile_text).companies ≠ [] then
            ("Skills: " ++ String.intercalate ", " ((extract_skills profile_text).take 5)
                ++ ". ")
              ++ ("Experience at: "
                  ++ String.intercalate ", " ((parse_resume ai profile_text).companies.take 2)
                  ++ ".")
          else
            "Skills: " ++ String.intercalate ", " ((extract_skills profile_text).take 5)
              ++ ". ")) ∧
    ∀ tok mdl,
      summarize_profile
          { ai with summarizer_tokenizer := tok, summarizer_model := mdl }
          profile_text max_length
        = summarize_profile ai profile_text max_length := by
  constructor
  · simp only [summarize_profile, fallback_summary, h, if_true]
  · intro tok mdl
    simp only [summarize_profile, fallback_summary, h, if_true]
    rfl

/-- Claim C5 witness: the fallback output on a concrete profile with the
summarizer absent. -/
theorem summarize_profile_fallback_spec_witness :
    summarize_profile testAI "python and java at heart" 100
      = some "Skills: Python, Java. " :=
  (summarize_profile_fallback_spec testAI rfl "python and java at heart" 100).1

/-- Claim C6: only the summarizer load is optional.  A summarizer failure
leaves the constructor succeeding with has_summarizer False and both
summarizer fields None, while a failure of the NER load or of the
embedding-model load makes the constructor raise ImportError. -/
theorem init_error_handling
    (nerM : String → List Entity) (simM : String → List ℚ)
    (cossim : List ℚ → List ℚ → ℚ) (e : String)
    (simLoad : Except String (String → List ℚ))
    (sumLoad : Except String (Unit × (String → Nat → String))) :
    (TalentFinderAI.init (Except.ok nerM) (Except.ok simM) cossim (Except.error e)
       = Except.ok { ner := nerM, similarity_model := simM, cosine_similarity := cossim,
                     has_summarizer := false, summarizer_tokenizer := none,
                     summarizer_model := none }) ∧
    (TalentFinderAI.init (Except.error e) simLoad cossim sumLoad
       = Except.error (importErrorMsg e)) ∧
    (TalentFinderAI.init (Except.ok nerM) (Except.error e) cossim sumLoad
       = Except.error (importErrorMsg e)) :=
  ⟨rfl, rfl, rfl⟩

/-- Claim C6 witness: the three constructor outcomes at concrete load
results. -/
theorem init_error_handling_witness :
    (TalentFinderAI.init (Except.ok fun _ => []) (Except.ok fun _ => [])
        (fun _ _ => 0) (Except.error "no sentencepiece")
       = Except.ok { ner := fun _ => [], similarity_model := fun _ => [],
                     cosine_similarity := fun _ _ => 0,
                     has_summarizer := false, summarizer_tokenizer := none,
                     summarizer_model := none }) ∧
    (TalentFinderAI.init (Except.error "no transformers")
        (Except.ok fun _ => []) (fun _ _ => 0) (Except.error "no sentencepiece")
       = Except.error (importErrorMsg "no transformers")) ∧
    (TalentFinderAI.init (Except.ok fun _ => []) (Except.error "no transformers")
        (fun _ _ => 0) (Except.error "no sentencepiece")
       = Except.error (importErrorMsg "no transformers")) := by
  have h := init_error_handling (fun _ => []) (fun _ => []) (fun _ _ => 0)
    "no sentencepiece" (Except.ok fun _ => []) (Except.error "no sentencepiece")
  have h2 := init_error_handling (fun _ => []) (fun _ => []) (fun _ _ => 0)
    "no transformers" (Except.ok fun _ => []) (Except.error "no sentencepiece")
  exact ⟨h.1, h2.2.1, h2.2.2⟩

end TalentFinder

namespace TalentFinder

/-- The descending score comparison is transitive. -/
lemma scoreDescLe_trans (a b c : RankedResult) :
    scoreDescLe a b = true → scoreDescLe b c = true → scoreDescLe a c = true := by
  simp only [scoreDescLe, decide_eq_true_iff]
  intro h1 h2
  exact le_trans h2 h1

/-- The descending score comparison is total. -/
lemma scoreDescLe_total (a b : RankedResult) :
    (scoreDescLe a b || scoreDescLe b a) = true := by
  simp only [scoreDescLe, Bool.or_eq_true, decide_eq_true_iff]
  exact le_total b.result.overall_match_score a.result.overall_match_score

/-- Claim C1: find_top_candidates is the descending stable sort of all
per-candidate results truncated to top_k; hence it returns exactly
min(top_k, number of candidates) results, the returned list is sorted by
overall_match_score in descending order, and every returned score
dominates the score of every result not returned. -/
theorem find_top_candidates_spec (ai : TalentFinderAI) (job_description : String)
    (candidate_profiles : List String) (top_k : Nat) :
    (find_top_candidates ai job_description candidate_profiles top_k
      = ((allResults ai job_description candidate_profiles).mergeSort scoreDescLe).take top_k) ∧
    (find_top_candidates ai job_description candidate_profiles top_k).length
      = min top_k candidate_profiles.length ∧
    (find_top_candidates ai job_description candidate_profiles top_k).Pairwise
      (fun a b => b.result.overall_match_score ≤ a.result.overall_match_score) ∧
    ∀ x ∈ find_top_candidates ai job_description candidate_profiles top_k,
      ∀ y ∈ allResults ai job_description candidate_profiles,
        y ∉ find_top_candidates ai job_description candidate_profiles top_k →
          y.result.overall_match_score ≤ x.result.overall_match_score := by
  have hperm := List.mergeSort_perm (allResults ai job_description candidate_profiles)
    scoreDescLe
  have hsorted := List.sorted_mergeSort scoreDescLe_trans scoreDescLe_total
    (allResults ai job_description candidate_profiles)
  have hsorted2 :
      ((allResults ai job_description candidate_profiles).mergeSort scoreDescLe).Pairwise
        (fun a b => b.result.overall_match_score ≤ a.result.overall_match_score) := by
    refine hsorted.imp ?_
    intro a b hab
    simpa [scoreDescLe, decide_eq_true_iff] using hab
  refine ⟨rfl, ?_, ?_, ?_⟩
  · show (((allResults ai job_description candidate_profiles).mergeSort
        scoreDescLe).take top_k).length = _
    rw [List.length_take, List.length_mergeSort]
    simp [allResults, List.enum_length]
  · exact List.Pairwise.sublist (List.take_sublist _ _) hsorted2
  · intro x hx y hy hyn
    have hyL : y ∈ (allResults ai job_description candidate_profiles).mergeSort scoreDescLe :=
      hperm.mem_iff.mpr hy
    have hsplit := List.take_append_drop top_k
      ((allResults ai job_description candidate_profiles).mergeSort scoreDescLe)
    rw [← hsplit] at hyL hsorted2
    rcases List.mem_append.mp hyL with h1 | h2
    · exact absurd h1 hyn
    · exact (List.pairwise_append.mp hsorted2).2.2 x hx y h2

/-- Claim C1 witness: with two candidates and top_k = 1 the returned list
has length min 1 2 = 1. -/
theorem find_top_candidates_spec_witness :
    (find_top_candidates testAI "python" ["python dev", "plumber"] 1).length
      = min 1 (["python dev", "plumber"] : List String).length :=
  (find_top_candidates_spec testAI "python" ["python dev", "plumber"] 1).2.1

end TalentFinder
